import Mathlib

/-!
Shallow embedding of `src/lighthouse-core/gather/gather-runner.js` (class
`GatherRunner`): the data model of phase results, network records and
Lighthouse errors, and the functions `getNetworkError`,
`getInterstitialError`, `getPageLoadError`, `loadPage`, `collectArtifacts`,
`initializeBaseArtifacts`, `finalizeBaseArtifacts` and the pass loop of
`run`, together with theorems checking the specification's claims about
them.

JavaScript values flowing through gatherer phases are modelled by `JSVal`
(with distinct `undefined` and `null`), strings by `String`, JS string
`includes` / `startsWith` by executable character-list functions, and JS
objects holding artifacts by insertion-ordered association lists.
-/

/-- Model of a JavaScript value as it flows through gatherer phase results
and artifact objects: `undef` is the JS `undefined` value (the absent
marker), `null` the JS `null`, and `err` an `Error`-like object with a code
and a message. -/
inductive JSVal where
  | undef : JSVal
  | null : JSVal
  | bool : Bool → JSVal
  | num : Int → JSVal
  | str : String → JSVal
  | err : String → String → JSVal
deriving DecidableEq, Repr

/-- Outcome of one gatherer phase promise once it has settled: either it
resolved to a JS value or it rejected with a captured error value. -/
inductive PhaseOutcome where
  | resolved : JSVal → PhaseOutcome
  | rejected : JSVal → PhaseOutcome
deriving DecidableEq, Repr

/-- Semantics of `Promise.all` over a list of settled promises: the reason
of the first rejected one in list order, if any. -/
def firstRejection : List PhaseOutcome → Option JSVal
  | [] => none
  | PhaseOutcome.resolved _ :: rest => firstRejection rest
  | PhaseOutcome.rejected e :: _ => some e

/-- The values of the resolved phase outcomes, in order. -/
def resolvedResults (phaseResults : List PhaseOutcome) : List JSVal :=
  phaseResults.filterMap fun r =>
    match r with
    | PhaseOutcome.resolved v => some v
    | PhaseOutcome.rejected _ => none

/-- Body of the per-gatherer loop of `GatherRunner.collectArtifacts`
(gather-runner.js lines 446-461): await all phase results; if all resolved,
take the last defined (non-`undefined`) one as the artifact (JS indexing of
an empty array yields `undefined`); if one rejected, the caught error value
itself becomes the artifact. If the resulting artifact is `undefined`, throw
an error naming the gatherer. -/
def collectArtifact (gathererName : String) (phaseResults : List PhaseOutcome) :
    Except String JSVal :=
  let artifact : JSVal :=
    match firstRejection phaseResults with
    | some e => e
    | none =>
      let definedResults := (resolvedResults phaseResults).filter (· ≠ JSVal.undef)
      definedResults.getLast?.getD JSVal.undef
  if artifact = JSVal.undef then
    Except.error (gathererName ++ " failed to provide an artifact.")
  else
    Except.ok artifact

/-- `GatherRunner.collectArtifacts` (gather-runner.js lines 441-467): fold
every gatherer's recorded phase results into one artifact per gatherer, in
entry order; the first gatherer whose artifact comes out `undefined` aborts
with a thrown error. -/
def collectArtifacts : List (String × List PhaseOutcome) →
    Except String (List (String × JSVal))
  | [] => Except.ok []
  | (gathererName, phaseResults) :: rest =>
    match collectArtifact gathererName phaseResults with
    | Except.error e => Except.error e
    | Except.ok artifact =>
      match collectArtifacts rest with
      | Except.error e => Except.error e
      | Except.ok tail => Except.ok ((gathererName, artifact) :: tail)

/-- Model of an `LHError` instance: its error code (the key into
`LHError.errors`, or a driver error code such as NO_FCP) together with the
optional properties the gather runner passes to the constructor. -/
structure LHError where
  code : String
  errorDetails : Option String
  statusCode : Option String
  securityMessages : Option String
deriving DecidableEq, Repr

/-- An `LHError` built from a code alone, with no extra properties. -/
def LHError.ofCode (code : String) : LHError :=
  ⟨code, none, none, none⟩

/-- JS `String.prototype.includes` on character lists: does the needle occur
as a contiguous run of the haystack? -/
def strIncludesAux (needle : List Char) : List Char → Bool
  | [] => needle.isEmpty
  | c :: rest => needle.isPrefixOf (c :: rest) || strIncludesAux needle rest

/-- JS `haystack.includes(needle)` (case-sensitive substring test). -/
def jsIncludes (haystack needle : String) : Bool :=
  strIncludesAux needle.data haystack.data

/-- JS `s.startsWith(pre)`. -/
def jsStartsWith (s pre : String) : Bool :=
  pre.data.isPrefixOf s.data

/-- Model of one `LH.Artifacts.NetworkRequest` as read by the gather
runner: its request URL, the URL of the document it belongs to, its
protocol, whether it failed with which native description, its status code,
and the value of its (external) `hasErrorStatusCode()` method, recorded as
a field since `network-request.js` is outside the embedded source. -/
structure NetworkRequest where
  url : String
  documentURL : String
  protocol : String
  failed : Bool
  localizedFailDescription : String
  statusCode : Int
  hasErrorStatusCode : Bool
deriving DecidableEq, Repr

/-- Modelled from the spec: `URL.equalWithExcludedFragments` lives in the
missing `lib/url-shim.js`; the spec says the comparison is of the two URLs
"with fragments stripped", so strip everything from the first `#` on. -/
def stripFragment (url : String) : String :=
  String.mk (url.data.takeWhile (· ≠ '#'))

/-- Modelled from the spec: URL equality with fragments excluded. -/
def equalWithExcludedFragments (url1 url2 : String) : Bool :=
  stripFragment url1 = stripFragment url2

/-- `GatherRunner.getNetworkError` (gather-runner.js lines 139-169). -/
def getNetworkError (url : String) (networkRecords : List NetworkRequest) :
    Option LHError :=
  let mainRecord := networkRecords.find? fun record =>
    equalWithExcludedFragments record.url url
  match mainRecord with
  | none => some (LHError.ofCode "NO_DOCUMENT_REQUEST")
  | some mainRecord =>
    if mainRecord.failed then
      let netErr := mainRecord.localizedFailDescription
      if netErr = "net::ERR_NAME_NOT_RESOLVED" ∨
          netErr = "net::ERR_NAME_RESOLUTION_FAILED" ∨
          jsStartsWith netErr "net::ERR_DNS_" then
        some (LHError.ofCode "DNS_FAILURE")
      else
        some ⟨"FAILED_DOCUMENT_REQUEST", some netErr, none, none⟩
    else if mainRecord.hasErrorStatusCode then
      some ⟨"ERRORED_DOCUMENT_REQUEST", none, some (toString mainRecord.statusCode), none⟩
    else
      none

/-- `GatherRunner.getInterstitialError` (gather-runner.js lines 176-200).
The list of non-network protocols is a constant of the missing
`lib/url-shim.js`, so it is taken as a parameter here. -/
def getInterstitialError (nonNetworkProtocols : List String)
    (networkRecords : List NetworkRequest) : Option LHError :=
  let interstitialRequest := networkRecords.find? fun record =>
    jsStartsWith record.documentURL "chrome-error://"
  match interstitialRequest with
  | none => none
  | some _ =>
    let pageNetworkRecords := networkRecords.filter fun record =>
      !(nonNetworkProtocols.contains record.protocol) &&
        !(jsStartsWith record.documentURL "chrome-error://")
    if !(pageNetworkRecords.any fun record => record.failed) then
      none
    else
      let insecureRequest := pageNetworkRecords.find? fun record =>
        record.failed && jsStartsWith record.localizedFailDescription "net::ERR_CERT"
      match insecureRequest with
      | some insecureRequest =>
        some ⟨"INSECURE_DOCUMENT_REQUEST", none, none,
          some insecureRequest.localizedFailDescription⟩
      | none => some (LHError.ofCode "CHROME_INTERSTITIAL_ERROR")

/-- The slice of the driver the page-load-error classifier reads: its
`online` flag. -/
structure Driver where
  online : Bool
deriving DecidableEq, Repr

/-- The slice of `LH.Gatherer.PassContext` read by `getPageLoadError`:
the driver handle and the current (post-redirect) URL. -/
structure PassContext where
  driver : Driver
  url : String
deriving DecidableEq, Repr

/-- The slice of `LH.Gatherer.LoadData` read by `getPageLoadError`: the
network records recorded during the pass. -/
structure LoadData where
  networkRecords : List NetworkRequest
deriving DecidableEq, Repr

/-- `GatherRunner.getPageLoadError` (gather-runner.js lines 210-229):
offline suppresses everything; otherwise interstitial error, then network
error, then the supplied navigation error. -/
def getPageLoadError (nonNetworkProtocols : List String)
    (passContext : PassContext) (loadData : LoadData)
    (navigationError : Option LHError) : Option LHError :=
  let networkError := getNetworkError passContext.url loadData.networkRecords
  let interstitialError := getInterstitialError nonNetworkProtocols loadData.networkRecords
  if !passContext.driver.online then
    none
  else
    match interstitialError with
    | some e => some e
    | none =>
      match networkError with
      | some e => some e
      | none => navigationError

/-- Outcome of the driver's `gotoURL` call as observed by `loadPage`:
either the final (post-redirect) URL, or a thrown `LHError`. -/
inductive GotoOutcome where
  | success : String → GotoOutcome
  | failure : LHError → GotoOutcome
deriving DecidableEq, Repr

/-- Context threaded through `loadPage`: only its mutable `url` matters
here. -/
structure LoadPassContext where
  url : String
deriving DecidableEq, Repr

/-- `GatherRunner.loadPage` (gather-runner.js lines 58-85): on success the
context's url becomes the post-redirect URL; a thrown error with code
NO_FCP or PAGE_HUNG is returned as `navigationError`; any other thrown
error is re-raised (modelled as `Except.error`). The first component of the
`ok` result is the updated context, the second the optional
`navigationError`. -/
def loadPage (gotoOutcome : GotoOutcome) (passContext : LoadPassContext) :
    Except LHError (LoadPassContext × Option LHError) :=
  match gotoOutcome with
  | GotoOutcome.success finalUrl =>
    Except.ok ({ passContext with url := finalUrl }, none)
  | GotoOutcome.failure e =>
    if e.code = "NO_FCP" ∨ e.code = "PAGE_HUNG" then
      Except.ok (passContext, some e)
    else
      Except.error e

/-- What `GatherRunner.runPass` hands back to the pass loop of `run`: the
artifacts collected for this pass (a JS object, modelled as an
insertion-ordered association list) and an optional page-load error. -/
structure PassResult where
  artifacts : List (String × JSVal)
  pageLoadError : Option LHError
deriving DecidableEq, Repr

/-- JS property assignment `obj[key] = v` on an insertion-ordered
association list: update the existing entry in place, else append. -/
def objSet (obj : List (String × JSVal)) (key : String) (v : JSVal) :
    List (String × JSVal) :=
  if obj.any fun p => p.1 = key then
    obj.map fun p => if p.1 = key then (key, v) else p
  else
    obj ++ [(key, v)]

/-- JS `Object.assign(target, source)`: copy source's entries into target,
in source order. -/
def objAssign (target source : List (String × JSVal)) : List (String × JSVal) :=
  source.foldl (fun t kv => objSet t kv.1 kv.2) target

/-- The pass loop of `GatherRunner.run` (gather-runner.js lines 583-607),
with the per-pass work abstracted into `runPass`: for each pass config in
turn, run the pass and merge its artifacts into the accumulator
(`Object.assign`); as soon as a pass reports a page-load error, stop and
record that error (it is stored into `BaseArtifacts.PageLoadError` and the
loop breaks). Returns the accumulated artifacts and the recorded error. -/
def runLoop {σ : Type} (runPass : σ → PassResult)
    (artifacts : List (String × JSVal)) :
    List σ → List (String × JSVal) × Option LHError
  | [] => (artifacts, none)
  | passConfig :: rest =>
    let passResults := runPass passConfig
    let artifacts := objAssign artifacts passResults.artifacts
    match passResults.pageLoadError with
    | some e => (artifacts, some e)
    | none => runLoop runPass artifacts rest

/-- The slice of `LH.Config.Settings` read by `initializeBaseArtifacts`:
the emulated form factor, a string that may be unset. -/
structure Settings where
  emulatedFormFactor : Option String
deriving DecidableEq, Repr

/-- The requested/final URL pair of the base artifacts. -/
structure URLArtifact where
  requestedUrl : String
  finalUrl : String
deriving DecidableEq, Repr

/-- The run-wide `LH.BaseArtifacts`, restricted to the fields this
embedding reasons about (per-pass logs and traces, the settings snapshot
and the manifest are kept out of scope). -/
structure BaseArtifacts where
  fetchTime : String
  LighthouseRunWarnings : List String
  TestedAsMobileDevice : Bool
  HostUserAgent : String
  NetworkUserAgent : String
  BenchmarkIndex : Int
  URL : URLArtifact
  Timing : List String
  PageLoadError : Option LHError
deriving DecidableEq, Repr

/-- `GatherRunner.initializeBaseArtifacts` (gather-runner.js lines
475-500). The host user agent (fetched from the driver) and the fetch time
(`new Date()`) are effects of the outside world, so they are parameters. -/
def initializeBaseArtifacts (fetchTime hostUserAgent : String)
    (settings : Settings) (requestedUrl : String) : BaseArtifacts :=
  let IsMobileHost := jsIncludes hostUserAgent "Android" || jsIncludes hostUserAgent "Mobile"
  let TestedAsMobileDevice := settings.emulatedFormFactor = some "mobile" ∨
    (settings.emulatedFormFactor ≠ some "desktop" ∧ IsMobileHost = true)
  { fetchTime := fetchTime
    LighthouseRunWarnings := []
    TestedAsMobileDevice := decide TestedAsMobileDevice
    HostUserAgent := hostUserAgent
    NetworkUserAgent := ""
    BenchmarkIndex := 0
    URL := ⟨requestedUrl, requestedUrl⟩
    Timing := []
    PageLoadError := none }

/-- JS `Array.from(new Set(xs))`: a `Set` iterates in insertion order and
ignores re-inserted duplicates, so fold left keeping only first
occurrences. -/
def arrayFromSet (xs : List String) : List String :=
  xs.foldl (fun acc x => if x ∈ acc then acc else acc ++ [x]) []

/-- The specification's words for warning deduplication: the list of
distinct elements in order of first occurrence. -/
def firstOccurrenceDedup : List String → List String
  | [] => []
  | x :: xs => x :: firstOccurrenceDedup (xs.filter fun y => y ≠ x)
termination_by xs => xs.length
decreasing_by
  simpa using Nat.lt_succ_of_le (List.length_filter_le _ _)

/-- `GatherRunner.finalizeBaseArtifacts` (gather-runner.js lines 535-541):
keep only unique run warnings and copy in the timing entries gathered so
far (the logger's entries are an outside effect, so they are a
parameter). -/
def finalizeBaseArtifacts (timeEntries : List String)
    (baseArtifacts : BaseArtifacts) : BaseArtifacts :=
  { baseArtifacts with
    LighthouseRunWarnings := arrayFromSet baseArtifacts.LighthouseRunWarnings
    Timing := timeEntries }

/-- A concrete per-pass behavior used to exercise the pass-loop theorem:
pass 0 collects one artifact, pass 1 fails with a page-load error, pass 2
would collect another artifact. -/
def runPassExample : Nat → PassResult
  | 0 => ⟨[("A", JSVal.str "a")], none⟩
  | 1 => ⟨[], some (LHError.ofCode "NO_FCP")⟩
  | _ => ⟨[("C", JSVal.str "c")], none⟩

lemma mem_of_getLast?_eq_some {α : Type} {l : List α} {a : α}
    (h : l.getLast? = some a) : a ∈ l := by
  rw [List.getLast?_eq_getElem?] at h
  exact List.getElem?_mem h

lemma firstRejection_map_resolved (vs : List JSVal) :
    firstRejection (vs.map PhaseOutcome.resolved) = none := by
  induction vs with
  | nil => rfl
  | cons v vs ih => simpa [firstRejection] using ih

lemma resolvedResults_map_resolved (vs : List JSVal) :
    resolvedResults (vs.map PhaseOutcome.resolved) = vs := by
  induction vs with
  | nil => rfl
  | cons v vs ih => simpa [resolvedResults, List.filterMap_cons] using ih

lemma collectArtifacts_single (gathererName : String)
    (phaseResults : List PhaseOutcome) :
    collectArtifacts [(gathererName, phaseResults)] =
      match collectArtifact gathererName phaseResults with
      | Except.ok a => Except.ok [(gathererName, a)]
      | Except.error e => Except.error e := by
  cases h : collectArtifact gathererName phaseResults <;>
    simp [collectArtifacts, h]

/-- C6: loadPage captures a driver error as a returned navigationError
exactly when its code is NO_FCP or PAGE_HUNG, re-raises every other driver
error, and on success updates the context URL to the post-redirect URL. -/
theorem loadPage_recoverable_errors (passContext : LoadPassContext) :
    (∀ finalUrl : String, loadPage (GotoOutcome.success finalUrl) passContext =
      Except.ok ({ url := finalUrl }, none)) ∧
    (∀ e : LHError, (e.code = "NO_FCP" ∨ e.code = "PAGE_HUNG") →
      loadPage (GotoOutcome.failure e) passContext = Except.ok (passContext, some e)) ∧
    (∀ e : LHError, e.code ≠ "NO_FCP" → e.code ≠ "PAGE_HUNG" →
      loadPage (GotoOutcome.failure e) passContext = Except.error e) := by
  refine ⟨fun finalUrl => rfl, fun e he => ?_, fun e h1 h2 => ?_⟩
  · show (if e.code = "NO_FCP" ∨ e.code = "PAGE_HUNG" then _ else _) = _
    rw [if_pos he]
  · show (if e.code = "NO_FCP" ∨ e.code = "PAGE_HUNG" then _ else _) = _
    rw [if_neg (not_or.mpr ⟨h1, h2⟩)]

/-- Closed instance of C6: a NO_FCP driver error is returned as a
navigation error rather than re-raised. -/
theorem loadPage_recoverable_errors_witness :
    loadPage (GotoOutcome.failure (LHError.ofCode "NO_FCP")) ⟨"http://start/"⟩ =
      Except.ok (⟨"http://start/"⟩, some (LHError.ofCode "NO_FCP")) :=
  (loadPage_recoverable_errors ⟨"http://start/"⟩).2.1 (LHError.ofCode "NO_FCP")
    (Or.inl rfl)

/-- C2: when the driver is offline, getPageLoadError reports no error even
if an interstitial, network or navigation error is present; when online,
the precedence is interstitial error, then network error, then the
supplied navigation error. -/
theorem getPageLoadError_offline_and_precedence
    (nonNetworkProtocols : List String) (passContext : PassContext)
    (loadData : LoadData) (navigationError : Option LHError) :
    (passContext.driver.online = false →
      getPageLoadError nonNetworkProtocols passContext loadData navigationError = none) ∧
    (passContext.driver.online = true →
      (∀ e, getInterstitialError nonNetworkProtocols loadData.networkRecords = some e →
        getPageLoadError nonNetworkProtocols passContext loadData navigationError = some e) ∧
      (getInterstitialError nonNetworkProtocols loadData.networkRecords = none →
        ∀ e, getNetworkError passContext.url loadData.networkRecords = some e →
        getPageLoadError nonNetworkProtocols passContext loadData navigationError = some e) ∧
      (getInterstitialError nonNetworkProtocols loadData.networkRecords = none →
        getNetworkError passContext.url loadData.networkRecords = none →
        getPageLoadError nonNetworkProtocols passContext loadData navigationError =
          navigationError)) := by
  constructor
  · intro h
    simp [getPageLoadError, h]
  · intro h
    refine ⟨fun e hi => ?_, fun hi e hn => ?_, fun hi hn => ?_⟩
    · simp [getPageLoadError, h, hi]
    · simp [getPageLoadError, h, hi, hn]
    · simp [getPageLoadError, h, hi, hn]

/-- Closed instance of C2: offline suppresses reporting even though the
empty record list yields a NO_DOCUMENT_REQUEST network error and a
navigation error is supplied. -/
theorem getPageLoadError_offline_and_precedence_witness :
    getPageLoadError [] ⟨⟨false⟩, "http://x.com/"⟩ ⟨[]⟩
        (some (LHError.ofCode "NO_FCP")) = none ∧
      getNetworkError "http://x.com/" [] =
        some (LHError.ofCode "NO_DOCUMENT_REQUEST") :=
  ⟨(getPageLoadError_offline_and_precedence [] ⟨⟨false⟩, "http://x.com/"⟩ ⟨[]⟩
      (some (LHError.ofCode "NO_FCP"))).1 rfl, rfl⟩

/-- C8: the mobile-device flag is true exactly when the emulated form
factor is "mobile", or it is not "desktop" and the host user agent contains
the case-sensitive substring "Android" or "Mobile"; form factor "desktop"
always yields false, and an unset form factor with a mobile marker yields
true. -/
theorem initializeBaseArtifacts_mobile_flag
    (fetchTime hostUserAgent requestedUrl : String) (settings : Settings) :
    ((initializeBaseArtifacts fetchTime hostUserAgent settings requestedUrl).TestedAsMobileDevice = true ↔
      (settings.emulatedFormFactor = some "mobile" ∨
        (settings.emulatedFormFactor ≠ some "desktop" ∧
          (jsIncludes hostUserAgent "Android" = true ∨
            jsIncludes hostUserAgent "Mobile" = true)))) ∧
    ((initializeBaseArtifacts fetchTime hostUserAgent ⟨some "desktop"⟩ requestedUrl).TestedAsMobileDevice = false) ∧
    ((jsIncludes hostUserAgent "Android" = true ∨ jsIncludes hostUserAgent "Mobile" = true) →
      (initializeBaseArtifacts fetchTime hostUserAgent ⟨none⟩ requestedUrl).TestedAsMobileDevice = true) := by
  refine ⟨?_, ?_, ?_⟩
  · simp [initializeBaseArtifacts, Bool.or_eq_true]
  · simp [initializeBaseArtifacts]
  · intro h
    rcases h with h | h <;> simp [initializeBaseArtifacts, h]

/-- Closed instance of C8: an unset form factor with an Android host user
agent yields a true mobile flag. -/
theorem initializeBaseArtifacts_mobile_flag_witness :
    (initializeBaseArtifacts "t" "Mozilla/5.0 (Linux; Android 10)" ⟨none⟩
        "http://x.com/").TestedAsMobileDevice = true :=
  (initializeBaseArtifacts_mobile_flag "t" "Mozilla/5.0 (Linux; Android 10)"
      "http://x.com/" ⟨none⟩).2.2 (Or.inl (by decide))

/-- C10: the absent marker of collectArtifacts is exactly the JS
`undefined` value: any other value, `null` included, placed as the last
phase result is selected as the final artifact and prevents the
missing-artifact failure; in particular phase results [absent, null] yield
the artifact null. -/
theorem collectArtifacts_absent_is_undefined (gathererName : String)
    (vs : List JSVal) (v : JSVal) (hv : v ≠ JSVal.undef) :
    collectArtifacts [(gathererName, (vs ++ [v]).map PhaseOutcome.resolved)] =
        Except.ok [(gathererName, v)] ∧
      collectArtifacts [("G", [PhaseOutcome.resolved JSVal.undef,
          PhaseOutcome.resolved JSVal.null])] =
        Except.ok [("G", JSVal.null)] := by
  constructor
  · have hlast : (((vs ++ [v]).filter (· ≠ JSVal.undef)).getLast?) = some v := by
      rw [List.filter_append]
      have hsing : [v].filter (· ≠ JSVal.undef) = [v] := by simp [hv]
      rw [hsing, List.getLast?_concat]
    have hart : collectArtifact gathererName ((vs ++ [v]).map PhaseOutcome.resolved) =
        Except.ok v := by
      simp only [collectArtifact, firstRejection_map_resolved,
        resolvedResults_map_resolved, hlast, Option.getD_some]
      rw [if_neg hv]
    rw [collectArtifacts_single, hart]
  · rfl

/-- Closed instance of C10: phase results [absent, null] yield the final
artifact null rather than a missing-artifact failure. -/
theorem collectArtifacts_absent_is_undefined_witness :
    collectArtifacts [("G", ([JSVal.undef] ++ [JSVal.null]).map PhaseOutcome.resolved)] =
      Except.ok [("G", JSVal.null)] :=
  (collectArtifacts_absent_is_undefined "G" [JSVal.undef] JSVal.null (by decide)).1

/-- C5: for a collector all of whose recorded phase results resolved, the
last result that is not the absent marker becomes the final artifact; when
every recorded result is absent, the run fails with a missing-artifact
error naming that collector. -/
theorem collectArtifacts_last_defined_wins (gathererName : String)
    (vs : List JSVal) :
    (∀ a, (vs.filter (· ≠ JSVal.undef)).getLast? = some a →
      collectArtifacts [(gathererName, vs.map PhaseOutcome.resolved)] =
        Except.ok [(gathererName, a)]) ∧
    ((∀ v ∈ vs, v = JSVal.undef) →
      collectArtifacts [(gathererName, vs.map PhaseOutcome.resolved)] =
        Except.error (gathererName ++ " failed to provide an artifact.")) ∧
    (collectArtifacts [("G", [PhaseOutcome.resolved JSVal.undef,
        PhaseOutcome.resolved (JSVal.str "A"), PhaseOutcome.resolved JSVal.undef])] =
      Except.ok [("G", JSVal.str "A")]) ∧
    (collectArtifacts [("G", [PhaseOutcome.resolved JSVal.undef,
        PhaseOutcome.resolved JSVal.undef])] =
      Except.error "G failed to provide an artifact.") := by
  refine ⟨?_, ?_, rfl, rfl⟩
  · intro a ha
    have hane : a ≠ JSVal.undef := by
      have hmem := mem_of_getLast?_eq_some ha
      simpa using (List.mem_filter.mp hmem).2
    have hart : collectArtifact gathererName (vs.map PhaseOutcome.resolved) =
        Except.ok a := by
      simp only [collectArtifact, firstRejection_map_resolved,
        resolvedResults_map_resolved, ha, Option.getD_some]
      rw [if_neg hane]
    rw [collectArtifacts_single, hart]
  · intro h
    have hfilter : vs.filter (· ≠ JSVal.undef) = [] := by
      rw [List.filter_eq_nil_iff]
      intro a hmem
      simpa using h a hmem
    have hart : collectArtifact gathererName (vs.map PhaseOutcome.resolved) =
        Except.error (gathererName ++ " failed to provide an artifact.") := by
      simp only [collectArtifact, firstRejection_map_resolved,
        resolvedResults_map_resolved, hfilter]
      rfl
    rw [collectArtifacts_single, hart]

/-- Closed instance of C5: phase results [absent, "A", absent] yield the
final artifact "A". -/
theorem collectArtifacts_last_defined_wins_witness :
    collectArtifacts [("G", [JSVal.undef, JSVal.str "A", JSVal.undef].map
        PhaseOutcome.resolved)] =
      Except.ok [("G", JSVal.str "A")] :=
  (collectArtifacts_last_defined_wins "G" [JSVal.undef, JSVal.str "A", JSVal.undef]).1
    (JSVal.str "A") (by decide)

/-- C7: when a collector's recorded phase results contain a rejection, the
error of the earliest rejected phase (in list order) becomes that
collector's artifact — taking precedence over any later non-absent value —
and no run-aborting failure is raised. -/
theorem collectArtifacts_captured_error_precedence (gathererName : String)
    (phaseResults : List PhaseOutcome) (e : JSVal)
    (hfirst : firstRejection phaseResults = some e) (he : e ≠ JSVal.undef) :
    collectArtifacts [(gathererName, phaseResults)] =
        Except.ok [(gathererName, e)] ∧
      (∀ (pre post : List PhaseOutcome) (e0 : JSVal),
        (∀ r ∈ pre, ∃ v, r = PhaseOutcome.resolved v) →
        firstRejection (pre ++ PhaseOutcome.rejected e0 :: post) = some e0) ∧
      collectArtifacts [("G", [PhaseOutcome.rejected (JSVal.err "E" "boom"),
          PhaseOutcome.resolved (JSVal.str "A")])] =
        Except.ok [("G", JSVal.err "E" "boom")] := by
  refine ⟨?_, ?_, rfl⟩
  · have hart : collectArtifact gathererName phaseResults = Except.ok e := by
      simp only [collectArtifact, hfirst]
      rw [if_neg he]
    rw [collectArtifacts_single, hart]
  · intro pre post e0 hres
    induction pre with
    | nil => rfl
    | cons r rest ih =>
      obtain ⟨v, rfl⟩ := hres r (by simp)
      simpa [firstRejection] using ih fun r hr => hres r (by simp [hr])

/-- Closed instance of C7: a rejection captured in the first phase becomes
the artifact even though the second phase produced a defined value. -/
theorem collectArtifacts_captured_error_precedence_witness :
    collectArtifacts [("G", [PhaseOutcome.rejected (JSVal.err "E" "boom"),
        PhaseOutcome.resolved (JSVal.str "A")])] =
      Except.ok [("G", JSVal.err "E" "boom")] :=
  (collectArtifacts_captured_error_precedence "G"
      [PhaseOutcome.rejected (JSVal.err "E" "boom"),
        PhaseOutcome.resolved (JSVal.str "A")]
      (JSVal.err "E" "boom") rfl (by decide)).1

lemma arrayFromSet_go (xs : List String) : ∀ acc : List String,
    xs.foldl (fun acc x => if x ∈ acc then acc else acc ++ [x]) acc =
      acc ++ firstOccurrenceDedup (xs.filter fun x => decide (x ∉ acc)) := by
  induction xs with
  | nil =>
    intro acc
    simp [firstOccurrenceDedup]
  | cons x xs ih =>
    intro acc
    by_cases hx : x ∈ acc
    · have hfilter : (x :: xs).filter (fun y => decide (y ∉ acc)) =
          xs.filter (fun y => decide (y ∉ acc)) := by
        simp [List.filter_cons, hx]
      rw [hfilter, List.foldl_cons, if_pos hx]
      exact ih acc
    · have hfilter : (x :: xs).filter (fun y => decide (y ∉ acc)) =
          x :: xs.filter (fun y => decide (y ∉ acc)) := by
        simp [List.filter_cons, hx]
      rw [hfilter, List.foldl_cons, if_neg hx, ih (acc ++ [x])]
      have hsplit : xs.filter (fun y => decide (y ∉ acc ++ [x])) =
          (xs.filter fun y => decide (y ∉ acc)).filter fun y => decide (y ≠ x) := by
        rw [List.filter_filter]
        apply List.filter_congr
        intro y _
        rw [Bool.eq_iff_iff]
        simp [List.mem_append, not_or, and_comm]
      rw [hsplit]
      simp only [firstOccurrenceDedup]
      simp [List.append_assoc]

lemma arrayFromSet_eq_firstOccurrenceDedup (xs : List String) :
    arrayFromSet xs = firstOccurrenceDedup xs := by
  rw [arrayFromSet, arrayFromSet_go xs []]
  simp

lemma mem_firstOccurrenceDedup (xs : List String) :
    ∀ a, a ∈ firstOccurrenceDedup xs ↔ a ∈ xs := by
  induction xs using firstOccurrenceDedup.induct with
  | case1 => simp [firstOccurrenceDedup]
  | case2 x xs ih =>
    intro a
    simp only [firstOccurrenceDedup, List.mem_cons, ih, List.mem_filter]
    by_cases hax : a = x <;> simp [hax]

lemma nodup_firstOccurrenceDedup (xs : List String) :
    (firstOccurrenceDedup xs).Nodup := by
  induction xs using firstOccurrenceDedup.induct with
  | case1 => simp [firstOccurrenceDedup]
  | case2 x xs ih =>
    simp only [firstOccurrenceDedup, List.nodup_cons]
    refine ⟨?_, ih⟩
    rw [mem_firstOccurrenceDedup]
    simp

/-- C9: finalizeBaseArtifacts replaces the accumulated run warnings with
the list of their distinct values in order of first occurrence, leaving
each retained warning's value unchanged. -/
theorem finalizeBaseArtifacts_dedups_warnings (timeEntries : List String)
    (baseArtifacts : BaseArtifacts) :
    (finalizeBaseArtifacts timeEntries baseArtifacts).LighthouseRunWarnings =
        firstOccurrenceDedup baseArtifacts.LighthouseRunWarnings ∧
      ((finalizeBaseArtifacts timeEntries baseArtifacts).LighthouseRunWarnings).Nodup ∧
      (∀ w, w ∈ (finalizeBaseArtifacts timeEntries baseArtifacts).LighthouseRunWarnings ↔
        w ∈ baseArtifacts.LighthouseRunWarnings) ∧
      (finalizeBaseArtifacts timeEntries
          { baseArtifacts with
            LighthouseRunWarnings := ["w1", "w1", "w2"] }).LighthouseRunWarnings =
        ["w1", "w2"] := by
  refine ⟨?_, ?_, ?_, rfl⟩
  · simpa [finalizeBaseArtifacts] using
      arrayFromSet_eq_firstOccurrenceDedup baseArtifacts.LighthouseRunWarnings
  · simp only [finalizeBaseArtifacts, arrayFromSet_eq_firstOccurrenceDedup]
    exact nodup_firstOccurrenceDedup _
  · intro w
    simp [finalizeBaseArtifacts, arrayFromSet_eq_firstOccurrenceDedup,
      mem_firstOccurrenceDedup]

/-- C3: classification of a failed or missing main document request. -/
theorem getNetworkError_classification (url : String)
    (networkRecords : List NetworkRequest) :
    ((∀ r ∈ networkRecords, equalWithExcludedFragments r.url url = false) →
      getNetworkError url networkRecords =
        some (LHError.ofCode "NO_DOCUMENT_REQUEST")) ∧
    (∀ r, networkRecords.find?
        (fun record => equalWithExcludedFragments record.url url) = some r →
      ((r.failed = true →
        ((r.localizedFailDescription = "net::ERR_NAME_NOT_RESOLVED" ∨
          r.localizedFailDescription = "net::ERR_NAME_RESOLUTION_FAILED" ∨
          jsStartsWith r.localizedFailDescription "net::ERR_DNS_" = true) →
          getNetworkError url networkRecords =
            some (LHError.ofCode "DNS_FAILURE")) ∧
        (¬(r.localizedFailDescription = "net::ERR_NAME_NOT_RESOLVED" ∨
           r.localizedFailDescription = "net::ERR_NAME_RESOLUTION_FAILED" ∨
           jsStartsWith r.localizedFailDescription "net::ERR_DNS_" = true) →
          getNetworkError url networkRecords =
            some ⟨"FAILED_DOCUMENT_REQUEST", some r.localizedFailDescription,
              none, none⟩)) ∧
      (r.failed = false → r.hasErrorStatusCode = true →
        getNetworkError url networkRecords =
          some ⟨"ERRORED_DOCUMENT_REQUEST", none,
            some (toString r.statusCode), none⟩) ∧
      (r.failed = false → r.hasErrorStatusCode = false →
        getNetworkError url networkRecords = none))) := by
  constructor
  · intro h
    have hfind : networkRecords.find?
        (fun record => equalWithExcludedFragments record.url url) = none := by
      rw [List.find?_eq_none]
      intro r hr
      simp [h r hr]
    simp [getNetworkError, hfind]
  · intro r hfind
    have hunfold : getNetworkError url networkRecords =
        (if r.failed then
          (if r.localizedFailDescription = "net::ERR_NAME_NOT_RESOLVED" ∨
              r.localizedFailDescription = "net::ERR_NAME_RESOLUTION_FAILED" ∨
              jsStartsWith r.localizedFailDescription "net::ERR_DNS_" then
            some (LHError.ofCode "DNS_FAILURE")
          else
            some ⟨"FAILED_DOCUMENT_REQUEST", some r.localizedFailDescription,
              none, none⟩)
        else if r.hasErrorStatusCode then
          some ⟨"ERRORED_DOCUMENT_REQUEST", none,
            some (toString r.statusCode), none⟩
        else
          none) := by
      simp only [getNetworkError, hfind]
    refine ⟨fun hfail => ⟨fun hdns => ?_, fun hdns => ?_⟩,
      fun hfail hcode => ?_, fun hfail hcode => ?_⟩
    · rw [hunfold, if_pos hfail, if_pos hdns]
    · rw [hunfold, if_pos hfail, if_neg hdns]
    · rw [hunfold, if_neg (by simp [hfail]), if_pos hcode]
    · rw [hunfold, if_neg (by simp [hfail]), if_neg (by simp [hcode])]

/-- Closed instance of C3: a failed main record (matched with its fragment
stripped) with description net::ERR_NAME_NOT_RESOLVED classifies as
DNS_FAILURE. -/
theorem getNetworkError_classification_witness :
    getNetworkError "http://x.com/"
        [⟨"http://x.com/#frag", "http://x.com/", "http", true,
          "net::ERR_NAME_NOT_RESOLVED", 0, false⟩] =
      some (LHError.ofCode "DNS_FAILURE") :=
  (((getNetworkError_classification "http://x.com/"
      [⟨"http://x.com/#frag", "http://x.com/", "http", true,
        "net::ERR_NAME_NOT_RESOLVED", 0, false⟩]).2
    ⟨"http://x.com/#frag", "http://x.com/", "http", true,
      "net::ERR_NAME_NOT_RESOLVED", 0, false⟩ (by decide)).1
    (by decide)).1 (Or.inl rfl)

/-- C4: classification of the browser error interstitial. -/
theorem getInterstitialError_classification (nonNetworkProtocols : List String)
    (networkRecords : List NetworkRequest) :
    ((∀ r ∈ networkRecords, jsStartsWith r.documentURL "chrome-error://" = false) →
      getInterstitialError nonNetworkProtocols networkRecords = none) ∧
    (∀ r0, networkRecords.find?
        (fun record => jsStartsWith record.documentURL "chrome-error://") = some r0 →
      ((∀ r ∈ networkRecords.filter (fun record =>
          !(nonNetworkProtocols.contains record.protocol) &&
            !(jsStartsWith record.documentURL "chrome-error://")), r.failed = false) →
        getInterstitialError nonNetworkProtocols networkRecords = none) ∧
      (∀ rf, (networkRecords.filter (fun record =>
          !(nonNetworkProtocols.contains record.protocol) &&
            !(jsStartsWith record.documentURL "chrome-error://"))).find?
          (fun record => record.failed &&
            jsStartsWith record.localizedFailDescription "net::ERR_CERT") = some rf →
        getInterstitialError nonNetworkProtocols networkRecords =
          some ⟨"INSECURE_DOCUMENT_REQUEST", none, none,
            some rf.localizedFailDescription⟩) ∧
      ((∃ r ∈ networkRecords.filter (fun record =>
          !(nonNetworkProtocols.contains record.protocol) &&
            !(jsStartsWith record.documentURL "chrome-error://")), r.failed = true) →
        (networkRecords.filter (fun record =>
          !(nonNetworkProtocols.contains record.protocol) &&
            !(jsStartsWith record.documentURL "chrome-error://"))).find?
          (fun record => record.failed &&
            jsStartsWith record.localizedFailDescription "net::ERR_CERT") = none →
        getInterstitialError nonNetworkProtocols networkRecords =
          some (LHError.ofCode "CHROME_INTERSTITIAL_ERROR"))) := by
  constructor
  · intro h
    have hfind : networkRecords.find?
        (fun record => jsStartsWith record.documentURL "chrome-error://") = none := by
      rw [List.find?_eq_none]
      intro r hr
      simp [h r hr]
    simp [getInterstitialError, hfind]
  · intro r0 hfind
    have hunfold : getInterstitialError nonNetworkProtocols networkRecords =
        (if !((networkRecords.filter (fun record =>
            !(nonNetworkProtocols.contains record.protocol) &&
              !(jsStartsWith record.documentURL "chrome-error://"))).any
            fun record => record.failed) then
          none
        else
          match (networkRecords.filter (fun record =>
              !(nonNetworkProtocols.contains record.protocol) &&
                !(jsStartsWith record.documentURL "chrome-error://"))).find?
              (fun record => record.failed &&
                jsStartsWith record.localizedFailDescription "net::ERR_CERT") with
          | some insecureRequest =>
            some ⟨"INSECURE_DOCUMENT_REQUEST", none, none,
              some insecureRequest.localizedFailDescription⟩
          | none => some (LHError.ofCode "CHROME_INTERSTITIAL_ERROR")) := by
      simp only [getInterstitialError, hfind]
    refine ⟨fun hnone => ?_, fun rf hrf => ?_, fun hex hcert => ?_⟩
    · have hany : ((networkRecords.filter (fun record =>
          !(nonNetworkProtocols.contains record.protocol) &&
            !(jsStartsWith record.documentURL "chrome-error://"))).any
          fun record => record.failed) = false := by
        rw [List.any_eq_false]
        intro x hx
        simp [hnone x hx]
      rw [hunfold, if_pos (by rw [hany]; decide)]
    · have hfail : rf.failed = true := by
        have hp := List.find?_some hrf
        exact (Bool.and_eq_true _ _).mp hp |>.1
      have hmem := List.mem_of_find?_eq_some hrf
      have hany : ((networkRecords.filter (fun record =>
          !(nonNetworkProtocols.contains record.protocol) &&
            !(jsStartsWith record.documentURL "chrome-error://"))).any
          fun record => record.failed) = true := by
        rw [List.any_eq_true]
        exact ⟨rf, hmem, hfail⟩
      rw [hunfold, if_neg (by rw [hany]; decide), hrf]
    · have hany : ((networkRecords.filter (fun record =>
          !(nonNetworkProtocols.contains record.protocol) &&
            !(jsStartsWith record.documentURL "chrome-error://"))).any
          fun record => record.failed) = true := by
        rw [List.any_eq_true]
        obtain ⟨r, hr, hfail⟩ := hex
        exact ⟨r, hr, hfail⟩
      rw [hunfold, if_neg (by rw [hany]; decide), hcert]

/-- Closed instance of C4: an interstitial document whose only sibling
request failed with a certificate error classifies as
INSECURE_DOCUMENT_REQUEST, not as the generic interstitial error. -/
theorem getInterstitialError_classification_witness :
    getInterstitialError ["blob", "data", "intent"]
        [⟨"chrome-error://chromewebdata/", "chrome-error://chromewebdata/",
          "http", false, "", 0, false⟩,
         ⟨"https://a.com/", "https://a.com/", "http", true,
          "net::ERR_CERT_COMMON_NAME_INVALID", 0, false⟩] =
      some ⟨"INSECURE_DOCUMENT_REQUEST", none, none,
        some "net::ERR_CERT_COMMON_NAME_INVALID"⟩ :=
  (((getInterstitialError_classification ["blob", "data", "intent"]
      [⟨"chrome-error://chromewebdata/", "chrome-error://chromewebdata/",
        "http", false, "", 0, false⟩,
       ⟨"https://a.com/", "https://a.com/", "http", true,
        "net::ERR_CERT_COMMON_NAME_INVALID", 0, false⟩]).2
    ⟨"chrome-error://chromewebdata/", "chrome-error://chromewebdata/",
      "http", false, "", 0, false⟩ (by decide)).2.1
    ⟨"https://a.com/", "https://a.com/", "http", true,
      "net::ERR_CERT_COMMON_NAME_INVALID", 0, false⟩ (by decide))

lemma runLoop_none_append {σ : Type} (runPass : σ → PassResult) (qs : List σ) :
    ∀ (ps : List σ) (acc : List (String × JSVal)),
      (∀ p ∈ ps, (runPass p).pageLoadError = none) →
      runLoop runPass acc (ps ++ qs) =
        runLoop runPass (ps.foldl (fun a p => objAssign a (runPass p).artifacts) acc) qs := by
  intro ps
  induction ps with
  | nil => intro acc _; rfl
  | cons p rest ih =>
    intro acc h
    have hp : (runPass p).pageLoadError = none := h p (by simp)
    simp only [List.cons_append, runLoop, hp, List.foldl_cons]
    exact ih _ fun q hq => h q (by simp [hq])

lemma runLoop_error_cons {σ : Type} (runPass : σ → PassResult) (p : σ)
    (rest : List σ) (acc : List (String × JSVal)) (e : LHError)
    (h : (runPass p).pageLoadError = some e) :
    runLoop runPass acc (p :: rest) = (objAssign acc (runPass p).artifacts, some e) := by
  simp [runLoop, h]

/-- C1: if the passes before index k succeed and pass k reports a
page-load error, the pass loop of run records that error, executes no
pass after k (the run equals the run over the first k+1 passes alone), and
the final artifacts are exactly the merge of the artifacts collected by
passes 0..k. -/
theorem run_halts_on_page_load_error {σ : Type} (runPass : σ → PassResult)
    (passConfigs : List σ) (k : Nat) (hk : k < passConfigs.length) (e : LHError)
    (hprev : ∀ p ∈ passConfigs.take k, (runPass p).pageLoadError = none)
    (herr : (runPass passConfigs[k]).pageLoadError = some e) :
    (runLoop runPass [] passConfigs).2 = some e ∧
      runLoop runPass [] passConfigs = runLoop runPass [] (passConfigs.take (k + 1)) ∧
      (runLoop runPass [] passConfigs).1 =
        (passConfigs.take (k + 1)).foldl
          (fun acc p => objAssign acc (runPass p).artifacts) [] := by
  have hsplit : passConfigs =
      passConfigs.take k ++ (passConfigs[k] :: passConfigs.drop (k + 1)) := by
    conv_lhs => rw [← List.take_append_drop k passConfigs]
    rw [List.drop_eq_getElem_cons hk]
  have htake : passConfigs.take (k + 1) = passConfigs.take k ++ [passConfigs[k]] := by
    rw [List.take_succ]
    simp [List.getElem?_eq_getElem hk]
  have hfull : runLoop runPass [] passConfigs =
      (objAssign ((passConfigs.take k).foldl
          (fun a p => objAssign a (runPass p).artifacts) [])
        (runPass passConfigs[k]).artifacts, some e) := by
    conv_lhs => rw [hsplit]
    rw [runLoop_none_append runPass _ _ _ hprev,
      runLoop_error_cons _ _ _ _ _ herr]
  have htrunc : runLoop runPass [] (passConfigs.take (k + 1)) =
      (objAssign ((passConfigs.take k).foldl
          (fun a p => objAssign a (runPass p).artifacts) [])
        (runPass passConfigs[k]).artifacts, some e) := by
    rw [htake, runLoop_none_append runPass _ _ _ hprev,
      runLoop_error_cons _ _ _ _ _ herr]
  have hfold : (passConfigs.take (k + 1)).foldl
      (fun acc p => objAssign acc (runPass p).artifacts) [] =
      objAssign ((passConfigs.take k).foldl
          (fun a p => objAssign a (runPass p).artifacts) [])
        (runPass passConfigs[k]).artifacts := by
    rw [htake, List.foldl_append]
    rfl
  refine ⟨by rw [hfull], by rw [hfull, htrunc], by rw [hfull, hfold]⟩

/-- Closed instance of C1: over three passes where the second reports a
page-load error, the loop records that error, the third pass contributes
nothing, and the first pass's artifact is retained. -/
theorem run_halts_on_page_load_error_witness :
    (runLoop runPassExample [] [0, 1, 2]).2 = some (LHError.ofCode "NO_FCP") ∧
      runLoop runPassExample [] [0, 1, 2] =
        runLoop runPassExample [] ([0, 1, 2].take 2) ∧
      (runLoop runPassExample [] [0, 1, 2]).1 =
        ([0, 1, 2].take 2).foldl
          (fun acc p => objAssign acc (runPassExample p).artifacts) [] :=
  run_halts_on_page_load_error runPassExample [0, 1, 2] 1 (by decide)
    (LHError.ofCode "NO_FCP") (by decide) (by decide)
